import Mathlib

/-!
Verification of the MindPulse risk-scoring and aggregation logic.

The Python sources are shallowly embedded over exact rational arithmetic:

* `compute_risk_score`, split into `baseScore` and `nudgesSum`, embeds
  `src/pages/user_dashboard_2.py` lines 89-138;
* `_risk_label` embeds `src/pages/user_dashboard_2.py` lines 479-480;
* `_compute_risk_row` / `_risk_bucket` embed `src/pages/admin_dashboard_2.py`
  lines 145-154 (the per-row form of the dataframe operations);
* `windowAvgRisk` embeds the windowed-mean KPI of
  `src/pages/admin_dashboard_2.py` lines 230-238;
* `analyze_mental_health` embeds `src/utils/analysis.py` lines 7-25.

Python `float` values are modelled as `ℚ`; Python `round(x, n)` (round half
to even) is modelled exactly by `pyRound`; a value that `float(...)` rejects
is modelled by `PyVal.nonnum`; pandas `NaN` results are modelled by `none`.
-/

namespace MindPulse

/-- A Python value as seen by the `float(x)` coercion inside the scorer:
either a value the coercion accepts (with its numeric value) or one it
rejects (a non-numeric string, `None`, ...). -/
inductive PyVal where
  | num (q : ℚ)
  | nonnum
deriving DecidableEq

/-- Embeds `_num` from `compute_risk_score` (user_dashboard_2.py:90-94):
`float(x)` on success, the default on any exception. -/
def _num (x : PyVal) (d : ℚ) : ℚ :=
  match x with
  | .num q => q
  | .nonnum => d

/-- One questionnaire submission attribute mapping, as consumed by
`compute_risk_score`.  A field absent from the Python dict is `none`. -/
structure FormData where
  stress_level : Option PyVal
  anxiety_level : Option PyVal
  depression_level : Option PyVal
  sleep_hours : Option PyVal
  exercise_freq : Option String
  diet_quality : Option String
  work_life_balance : Option String
  social_interaction : Option String
  past_mental_illness : Option String
  current_medication : Option String
deriving DecidableEq

/-- Embeds Python `str.strip()`: whitespace removed from both ends. -/
def pyStrip (s : String) : String :=
  ⟨((s.data.dropWhile Char.isWhitespace).reverse.dropWhile Char.isWhitespace).reverse⟩

/-- Embeds `(form_data.get(key) or "").strip()`: a missing field reads as
the empty string, and surrounding whitespace is stripped. -/
def getStr (o : Option String) : String :=
  pyStrip (o.getD "")

/-- Embeds `max(lo, min(hi, q))`, the clamping idiom of the scorer. -/
def pyClamp (lo hi q : ℚ) : ℚ :=
  max lo (min hi q)

/-- Round half to even, the rounding mode of Python `round`. -/
def roundHalfEven (q : ℚ) : ℤ :=
  if Int.fract q < 1 / 2 then ⌊q⌋
  else if 1 / 2 < Int.fract q then ⌊q⌋ + 1
  else if ⌊q⌋ % 2 = 0 then ⌊q⌋ else ⌊q⌋ + 1

/-- Embeds Python `round(q, n)`: round half to even at `n` decimal places. -/
def pyRound (q : ℚ) (n : ℕ) : ℚ :=
  (roundHalfEven (q * 10 ^ n) : ℚ) / 10 ^ n

/-- The weighted base of `compute_risk_score`
(user_dashboard_2.py:97-100): `s*0.45 + a*0.35 + d*0.20`, each input
coerced with default `0`. -/
def baseScore (fd : FormData) : ℚ :=
  let s := _num (fd.stress_level.getD (.num 0)) 0
  let a := _num (fd.anxiety_level.getD (.num 0)) 0
  let d := _num (fd.depression_level.getD (.num 0)) 0
  s * (45 / 100) + a * (35 / 100) + d * (20 / 100)

/-- The lifestyle nudges of `compute_risk_score`
(user_dashboard_2.py:101-135), summed before clamping. -/
def nudgesSum (fd : FormData) : ℚ :=
  let sleep := _num (fd.sleep_hours.getD (.num 0)) 0
  let n1 : ℚ := if sleep < 6 then 4 / 10
    else if 7 ≤ sleep ∧ sleep ≤ 9 then -(2 / 10) else 0
  let exercise := getStr fd.exercise_freq
  let n2 : ℚ := if exercise = "None" then 2 / 10
    else if exercise = "3-5 days/week" ∨ exercise = "Daily" then -(2 / 10) else 0
  let diet := getStr fd.diet_quality
  let n3 : ℚ := if diet = "Poor" then 2 / 10
    else if diet = "Good" ∨ diet = "Excellent" then -(1 / 10) else 0
  let wlb := getStr fd.work_life_balance
  let n4 : ℚ := if wlb = "Poor" then 3 / 10
    else if wlb = "Good" ∨ wlb = "Excellent" then -(1 / 10) else 0
  let social := getStr fd.social_interaction
  let n5 : ℚ := if social = "Rarely" then 2 / 10
    else if social = "Often" ∨ social = "Daily" then -(1 / 10) else 0
  let n6 : ℚ := if fd.past_mental_illness.getD "" = "Yes" then 2 / 10 else 0
  let n7 : ℚ := if fd.current_medication.getD "" = "Yes" then 1 / 10 else 0
  n1 + n2 + n3 + n4 + n5 + n6 + n7

/-- Embeds `compute_risk_score` (user_dashboard_2.py:89-138):
`round(max(0, min(10, base + max(-1, min(1, nudges)))), 1)`. -/
def compute_risk_score (fd : FormData) : ℚ :=
  let score := baseScore fd + pyClamp (-1) 1 (nudgesSum fd)
  pyRound (pyClamp 0 10 score) 1

/-- Embeds `_risk_label` (user_dashboard_2.py:479-480). -/
def _risk_label (v : ℚ) : String :=
  if v ≥ 7 then "High" else if v ≥ 4 then "Moderate" else "Low"

/-- Embeds the per-row content of `_compute_risk`
(admin_dashboard_2.py:145-150): each of the three fields is coerced with
`pd.to_numeric(errors="coerce")` (`none` = `NaN`, which propagates), the
weighted sum is formed, and `.clip(0, 10)` is applied.  A row of a
dataframe missing one of the needed columns behaves as a row whose field
is `none`. -/
def _compute_risk_row (s a d : Option ℚ) : Option ℚ :=
  match s, a, d with
  | some s, some a, some d =>
      some (min (max (s * (45 / 100) + a * (35 / 100) + d * (20 / 100)) 0) 10)
  | _, _, _ => none

/-- Embeds the per-value content of `_risk_bucket`
(admin_dashboard_2.py:153-154): `pd.cut(series, bins=[-0.001, 4, 7, 10],
labels=["Low", "Moderate", "High"])` with the default right-closed
intervals `(-0.001, 4]`, `(4, 7]`, `(7, 10]`; values outside every bin
become `NaN` (`none`). -/
def _risk_bucket (v : ℚ) : Option String :=
  if -(1 / 1000) < v ∧ v ≤ 4 then some "Low"
  else if 4 < v ∧ v ≤ 7 then some "Moderate"
  else if 7 < v ∧ v ≤ 10 then some "High"
  else none

/-- One in-window submission row as the admin Aggregator sees it: the three
numeric columns after `pd.to_numeric(errors="coerce")` (`none` = `NaN`). -/
structure AdminRow where
  stress_level : Option ℚ
  anxiety_level : Option ℚ
  depression_level : Option ℚ
deriving DecidableEq

/-- The risk value `_compute_risk` assigns to one row. -/
def rowRisk (r : AdminRow) : Option ℚ :=
  _compute_risk_row r.stress_level r.anxiety_level r.depression_level

/-- Embeds the windowed "Avg Risk" KPI (admin_dashboard_2.py:230-238):
`avg_risk = None; if not inputs_win.empty: r = _compute_risk(inputs_win);
if not r.dropna().empty: avg_risk = round(r.mean(), 2)`.  Pandas `mean`
skips `NaN` entries, so the mean runs over `filterMap rowRisk`. -/
def windowAvgRisk (rows : List AdminRow) : Option ℚ :=
  if rows.isEmpty then none
  else
    let rs := rows.filterMap rowRisk
    if rs.isEmpty then none
    else some (pyRound (rs.sum / rs.length) 2)

/-- The dict returned by `analyze_mental_health`. -/
structure AnalysisResult where
  score : ℚ
  risk_level : String
deriving DecidableEq

/-- Embeds `analyze_mental_health` (src/utils/analysis.py:7-25): the
legacy scorer.  It reads the three levels by direct subscript (no
coercion, no defaulting) and applies no clamping. -/
def analyze_mental_health (stress_level anxiety_level depression_level : ℚ) :
    AnalysisResult :=
  let score := stress_level * (4 / 10) + anxiety_level * (3 / 10) +
    depression_level * (3 / 10)
  let risk_level := if score > 7 then "High"
    else if score > 4 then "Moderate" else "Low"
  ⟨pyRound score 2, risk_level⟩

/-- The §8 example submission: stress 8, anxiety 6, depression 5,
sleep 5, exercise "None", diet "Average", work-life "Fair",
social "Sometimes", past illness "No", medication "No". -/
def fdExample : FormData :=
  ⟨some (.num 8), some (.num 6), some (.num 5), some (.num 5),
   some "None", some "Average", some "Fair", some "Sometimes",
   some "No", some "No"⟩

/-- A maximal-severity submission: stress, anxiety and depression all 10,
sleep 0, exercise "None", diet "Poor", work-life "Poor", social "Rarely",
past illness "Yes", medication "Yes". -/
def fdMax : FormData :=
  ⟨some (.num 10), some (.num 10), some (.num 10), some (.num 0),
   some "None", some "Poor", some "Poor", some "Rarely",
   some "Yes", some "Yes"⟩

/-- The empty attribute mapping: every field missing from the dict. -/
def fdEmpty : FormData :=
  ⟨none, none, none, none, none, none, none, none, none, none⟩

/-- Replaces each numeric field of a submission by the value `_num`
actually extracts from it (a missing or non-coercible field becomes the
explicit number `0`); categorical fields are untouched. -/
def numCoerced (fd : FormData) : FormData :=
  { fd with
    stress_level := some (.num (_num (fd.stress_level.getD (.num 0)) 0)),
    anxiety_level := some (.num (_num (fd.anxiety_level.getD (.num 0)) 0)),
    depression_level := some (.num (_num (fd.depression_level.getD (.num 0)) 0)),
    sleep_hours := some (.num (_num (fd.sleep_hours.getD (.num 0)) 0)) }

/-! ### Helper lemmas -/

theorem roundHalfEven_intCast (n : ℤ) : roundHalfEven (n : ℚ) = n := by
  unfold roundHalfEven
  rw [Int.fract_intCast]
  norm_num

theorem floor_le_roundHalfEven (q : ℚ) : ⌊q⌋ ≤ roundHalfEven q := by
  unfold roundHalfEven
  split_ifs <;> omega

theorem roundHalfEven_le_ceil (q : ℚ) : roundHalfEven q ≤ ⌈q⌉ := by
  have hc : Int.fract q ≠ 0 → ⌊q⌋ + 1 ≤ ⌈q⌉ := by
    intro h
    have h0 : 0 < Int.fract q := lt_of_le_of_ne (Int.fract_nonneg q) (Ne.symm h)
    have hq : (⌊q⌋ : ℚ) + Int.fract q = q := Int.floor_add_fract q
    exact Int.lt_ceil.mpr (by linarith)
  unfold roundHalfEven
  split_ifs with h1 h2 h3
  · exact Int.floor_le_ceil q
  · exact hc (by linarith)
  · exact Int.floor_le_ceil q
  · have he : Int.fract q = 1 / 2 := le_antisymm (not_lt.mp h2) (not_lt.mp h1)
    exact hc (by rw [he]; norm_num)

theorem pyRound_eq_self (m : ℤ) (n : ℕ) :
    pyRound ((m : ℚ) / 10 ^ n) n = (m : ℚ) / 10 ^ n := by
  unfold pyRound
  have h : ((m : ℚ) / 10 ^ n) * 10 ^ n = (m : ℚ) := by
    field_simp
  rw [h, roundHalfEven_intCast]

theorem compute_risk_score_range (fd : FormData) :
    0 ≤ compute_risk_score fd ∧ compute_risk_score fd ≤ 10 ∧
      ∃ m : ℤ, compute_risk_score fd = (m : ℚ) / 10 := by
  unfold compute_risk_score pyRound
  set x := pyClamp 0 10 (baseScore fd + pyClamp (-1) 1 (nudgesSum fd)) with hx
  have hx0 : 0 ≤ x := le_max_left 0 _
  have hx10 : x ≤ 10 := max_le (by norm_num) (min_le_left _ _)
  have h0 : (0 : ℤ) ≤ roundHalfEven (x * 10 ^ 1) :=
    le_trans (Int.floor_nonneg.mpr (by positivity)) (floor_le_roundHalfEven _)
  have h100 : roundHalfEven (x * 10 ^ 1) ≤ 100 :=
    le_trans (roundHalfEven_le_ceil _) (Int.ceil_le.mpr (by push_cast; linarith))
  refine ⟨?_, ?_, ⟨roundHalfEven (x * 10 ^ 1), by norm_num⟩⟩
  · apply div_nonneg _ (by norm_num)
    exact_mod_cast h0
  · rw [div_le_iff₀ (by norm_num)]
    calc (roundHalfEven (x * 10 ^ 1) : ℚ) ≤ 100 := by exact_mod_cast h100
    _ = 10 * 10 ^ 1 := by norm_num

theorem baseScore_fdExample : baseScore fdExample = 67 / 10 := by
  simp only [baseScore, fdExample, Option.getD_some, _num]
  norm_num

theorem nudgesSum_fdExample : nudgesSum fdExample = 6 / 10 := by
  have e1 : getStr (some "None") = "None" := by decide
  have e2 : getStr (some "Average") = "Average" := by decide
  have e3 : getStr (some "Fair") = "Fair" := by decide
  have e4 : getStr (some "Sometimes") = "Sometimes" := by decide
  simp only [nudgesSum, fdExample, e1, e2, e3, e4, Option.getD_some, _num]
  norm_num
  simp

theorem compute_risk_score_fdExample : compute_risk_score fdExample = 73 / 10 := by
  have h1 : pyClamp (-1) 1 (6 / 10 : ℚ) = 6 / 10 := by
    unfold pyClamp
    rw [min_eq_right (by norm_num), max_eq_right (by norm_num)]
  have h2 : pyClamp 0 10 (73 / 10 : ℚ) = 73 / 10 := by
    unfold pyClamp
    rw [min_eq_right (by norm_num), max_eq_right (by norm_num)]
  have h3 : pyRound (73 / 10) 1 = 73 / 10 := by
    have h := pyRound_eq_self 73 1
    norm_num at h
    exact h
  simp only [compute_risk_score, baseScore_fdExample, nudgesSum_fdExample, h1]
  norm_num [h2, h3]

theorem nudgesSum_fdMax : nudgesSum fdMax = 16 / 10 := by
  have e1 : getStr (some "None") = "None" := by decide
  have e2 : getStr (some "Poor") = "Poor" := by decide
  have e3 : getStr (some "Rarely") = "Rarely" := by decide
  simp only [nudgesSum, fdMax, e1, e2, e3, Option.getD_some, _num]
  norm_num

theorem baseScore_fdEmpty : baseScore fdEmpty = 0 := by
  simp only [baseScore, fdEmpty, Option.getD_none, _num]
  norm_num

theorem nudgesSum_fdEmpty : nudgesSum fdEmpty = 4 / 10 := by
  have e : getStr none = "" := by decide
  simp only [nudgesSum, fdEmpty, e, Option.getD_none, _num]
  norm_num
  simp

/-! ### Claims -/

/-- C1: for every attribute mapping, with arbitrary (also negative or
out-of-range) numeric values for stress, anxiety, depression and sleep,
`compute_risk_score` returns a value in `[0, 10]` that is an exact
multiple of one tenth (i.e. rounded to one decimal place). -/
theorem risk_score_clamped_and_rounded (fd : FormData) :
    0 ≤ compute_risk_score fd ∧ compute_risk_score fd ≤ 10 ∧
      ∃ m : ℤ, compute_risk_score fd = (m : ℚ) / 10 :=
  compute_risk_score_range fd

/-- C2: the §8 example submission (stress 8, anxiety 6, depression 5,
sleep 5, exercise "None", diet "Average", work-life "Fair", social
"Sometimes", no prior illness, no medication) scores exactly 7.3, its
base is 6.7, its nudges sum to 0.6, and `_risk_label` maps 7.3 to
"High". -/
theorem example_submission_score :
    baseScore fdExample = 67 / 10 ∧ nudgesSum fdExample = 6 / 10 ∧
      compute_risk_score fdExample = 73 / 10 ∧ _risk_label (73 / 10) = "High" := by
  refine ⟨baseScore_fdExample, nudgesSum_fdExample, compute_risk_score_fdExample, ?_⟩
  unfold _risk_label
  rw [if_pos (by norm_num)]

/-- C3 counterexample: for the maximal-severity submission (stress,
anxiety and depression 10, sleep 0 < 6, exercise "None", diet "Poor",
work-life "Poor", social "Rarely", prior illness "Yes", medication
"Yes") the lifestyle nudges sum to 1.6 before clamping, not to the 1.4
the claim states. -/
theorem max_nudges_not_fourteen :
    nudgesSum fdMax = 16 / 10 ∧ (16 / 10 : ℚ) ≠ 14 / 10 :=
  ⟨nudgesSum_fdMax, by norm_num⟩

/-- C3 (amended): for every attribute mapping with stress, anxiety and
depression 10, sleep hours a number below 6, exercise "None", diet
"Poor", work-life "Poor", social "Rarely", prior illness "Yes" and
medication "Yes", the nudges sum to +1.6 (not +1.4) before clamping,
the sum is clamped to +1.0, and `compute_risk_score` returns
`clamp(10 + 1.0, 0, 10) = 10.0`. -/
theorem max_severity_score (fd : FormData) (q : ℚ)
    (hs : fd.stress_level = some (.num 10))
    (ha : fd.anxiety_level = some (.num 10))
    (hd : fd.depression_level = some (.num 10))
    (hq : fd.sleep_hours = some (.num q)) (hq6 : q < 6)
    (he : fd.exercise_freq = some "None")
    (hdi : fd.diet_quality = some "Poor")
    (hw : fd.work_life_balance = some "Poor")
    (hso : fd.social_interaction = some "Rarely")
    (hp : fd.past_mental_illness = some "Yes")
    (hm : fd.current_medication = some "Yes") :
    nudgesSum fd = 16 / 10 ∧ pyClamp (-1) 1 (nudgesSum fd) = 1 ∧
      compute_risk_score fd = 10 := by
  have e1 : getStr (some "None") = "None" := by decide
  have e2 : getStr (some "Poor") = "Poor" := by decide
  have e3 : getStr (some "Rarely") = "Rarely" := by decide
  have hb : baseScore fd = 10 := by
    simp only [baseScore, hs, ha, hd, Option.getD_some, _num]
    norm_num
  have hn : nudgesSum fd = 16 / 10 := by
    simp only [nudgesSum, hq, he, hdi, hw, hso, hp, hm, e1, e2, e3,
      Option.getD_some, _num]
    rw [if_pos hq6]
    norm_num
  have hcl : pyClamp (-1) 1 (16 / 10 : ℚ) = 1 := by
    unfold pyClamp
    rw [min_eq_left (by norm_num), max_eq_right (by norm_num)]
  have h10 : pyClamp 0 10 (11 : ℚ) = 10 := by
    unfold pyClamp
    rw [min_eq_left (by norm_num), max_eq_right (by norm_num)]
  refine ⟨hn, by rw [hn]; exact hcl, ?_⟩
  have hr : pyRound (10 : ℚ) 1 = 10 := by
    have h := pyRound_eq_self 100 1
    norm_num at h
    exact h
  simp only [compute_risk_score, hb, hn, hcl]
  norm_num [h10, hr]

/-- C3 witness: the amended claim instantiated at the concrete
maximal-severity submission `fdMax` (sleep 0). -/
theorem max_severity_score_witness :
    nudgesSum fdMax = 16 / 10 ∧ pyClamp (-1) 1 (nudgesSum fdMax) = 1 ∧
      compute_risk_score fdMax = 10 :=
  max_severity_score fdMax 0 rfl rfl rfl rfl (by norm_num) rfl rfl rfl rfl rfl rfl

/-- C4: for every score in `[0, 10]`, `_risk_label` returns "High" when
the score is at least 7, "Moderate" when it is in `[4, 7)`, and "Low"
when it is below 4. -/
theorem risk_label_thresholds (s : ℚ) (h0 : 0 ≤ s) (h10 : s ≤ 10) :
    (7 ≤ s → _risk_label s = "High") ∧
      ((4 ≤ s ∧ s < 7) → _risk_label s = "Moderate") ∧
      (s < 4 → _risk_label s = "Low") := by
  refine ⟨fun h => ?_, fun h => ?_, fun h => ?_⟩
  · unfold _risk_label
    rw [if_pos h]
  · unfold _risk_label
    rw [if_neg (not_le.mpr h.2), if_pos h.1]
  · unfold _risk_label
    rw [if_neg (not_le.mpr (by linarith)), if_neg (not_le.mpr h)]

/-- C4 witness: the threshold theorem instantiated at score 8, which is
labelled "High". -/
theorem risk_label_thresholds_witness : _risk_label 8 = "High" :=
  (risk_label_thresholds 8 (by norm_num) (by norm_num)).1 (by norm_num)

theorem clip_eq_pyClamp (x : ℚ) : min (max x 0) 10 = pyClamp 0 10 x := by
  unfold pyClamp
  rcases le_total x 0 with h | h
  · rw [max_eq_right h, min_eq_left (by norm_num : (0 : ℚ) ≤ 10),
      min_eq_right (le_trans h (by norm_num)), max_eq_left h]
  · rcases le_total x 10 with h2 | h2
    · rw [max_eq_left h, min_eq_left h2, min_eq_right h2, max_eq_right h]
    · rw [max_eq_left (le_trans (by norm_num) h2), min_eq_right h2,
        min_eq_left h2, max_eq_right (by norm_num : (0 : ℚ) ≤ 10)]

theorem rowRisk_example : rowRisk ⟨some 8, some 6, some 5⟩ = some (67 / 10) := by
  unfold rowRisk _compute_risk_row
  norm_num

/-- C5 counterexample: on the §8 example row (stress 8, anxiety 6,
depression 5) the Aggregator per-row risk is 6.7 while
`compute_risk_score` on the same attributes is 7.3, so the two are not
equal on every row. -/
theorem aggregator_risk_differs :
    rowRisk ⟨some 8, some 6, some 5⟩ = some (67 / 10) ∧
      compute_risk_score fdExample = 73 / 10 ∧
      rowRisk ⟨some 8, some 6, some 5⟩ ≠ some (compute_risk_score fdExample) := by
  refine ⟨rowRisk_example, compute_risk_score_fdExample, ?_⟩
  rw [rowRisk_example, compute_risk_score_fdExample]
  simp only [ne_eq, Option.some.injEq]
  norm_num

/-- C5 (amended): the per-row risk the Aggregator computes before
grouping equals the clipped weighted base `clamp(0.45*stress +
0.35*anxiety + 0.20*depression, 0, 10)` of the Risk Scorer, with no
lifestyle nudges and no rounding (so it differs from
`compute_risk_score` itself); a row with a non-numeric needed field gets
no risk value. -/
theorem aggregator_row_risk_clipped_base (s a d : ℚ) :
    rowRisk ⟨some s, some a, some d⟩ =
      some (pyClamp 0 10 (baseScore
        ⟨some (.num s), some (.num a), some (.num d), none, none,
          none, none, none, none, none⟩)) ∧
      rowRisk ⟨none, some a, some d⟩ = none := by
  constructor
  · have hbs : baseScore ⟨some (.num s), some (.num a), some (.num d), none,
        none, none, none, none, none, none⟩ =
        s * (45 / 100) + a * (35 / 100) + d * (20 / 100) := by
      simp only [baseScore, Option.getD_some, _num]
    rw [hbs]
    show some (min (max (s * (45 / 100) + a * (35 / 100) + d * (20 / 100)) 0) 10) = _
    rw [clip_eq_pyClamp]
  · rfl

/-- C6: the per-submission label and the analytics bucketing function do
not agree on every score in [0, 10]: at the boundary score 7 the label
is "High" but the population bucket is "Moderate". -/
theorem label_bucket_disagree :
    (0 : ℚ) ≤ 7 ∧ (7 : ℚ) ≤ 10 ∧ _risk_label 7 = "High" ∧
      _risk_bucket 7 = some "Moderate" ∧
      some (_risk_label 7) ≠ _risk_bucket 7 := by
  have hl : _risk_label 7 = "High" := by
    unfold _risk_label
    rw [if_pos (by norm_num)]
  have hb : _risk_bucket 7 = some "Moderate" := by
    unfold _risk_bucket
    rw [if_neg (by norm_num), if_pos (by norm_num)]
  refine ⟨by norm_num, by norm_num, hl, hb, ?_⟩
  rw [hl, hb]
  simp

/-- C7: the scorer is a total function of the attribute mapping (the
embedding can raise no exception), and a numeric field that is missing
or that fails float coercion behaves exactly as the explicit default
number 0: replacing each numeric field by the value `_num` extracts
leaves the score unchanged, and `_num` maps every non-coercible value to
its default. -/
theorem scorer_defaults_failed_coercions (fd : FormData) :
    compute_risk_score fd = compute_risk_score (numCoerced fd) ∧
      ∀ d : ℚ, _num PyVal.nonnum d = d := by
  constructor
  · have hb : baseScore (numCoerced fd) = baseScore fd := by
      simp only [baseScore, numCoerced, Option.getD_some, _num]
    have hn : nudgesSum (numCoerced fd) = nudgesSum fd := by
      simp only [nudgesSum, numCoerced, Option.getD_some, _num]
    simp only [compute_risk_score, hb, hn]
  · intro d
    rfl

/-- C8: the windowed aggregate over the empty collection reports count 0
and an absent mean, and over any collection in which no row has a
parseable risk value it likewise reports an absent mean; the guarded
definition never divides by zero. -/
theorem aggregator_empty_no_fault (rows : List AdminRow)
    (h : ∀ r ∈ rows, rowRisk r = none) :
    ([] : List AdminRow).length = 0 ∧ windowAvgRisk [] = none ∧
      windowAvgRisk rows = none := by
  refine ⟨rfl, rfl, ?_⟩
  have hnil : rows.filterMap rowRisk = [] := List.filterMap_eq_nil_iff.mpr h
  simp [windowAvgRisk, hnil]

/-- C8 witness: the aggregator theorem instantiated at a one-row
collection whose row has a non-numeric stress level. -/
theorem aggregator_empty_no_fault_witness :
    ([] : List AdminRow).length = 0 ∧ windowAvgRisk [] = none ∧
      windowAvgRisk [⟨none, some 5, some 5⟩] = none :=
  aggregator_empty_no_fault [⟨none, some 5, some 5⟩]
    (fun r hr => by rw [List.mem_singleton.mp hr]; rfl)

/-- C9: the legacy scorer `analyze_mental_health` returns
`round(0.4*stress + 0.3*anxiety + 0.3*depression, 2)` with no clamping,
and on the out-of-range mapping stress = anxiety = depression = 20 it
returns 20, a score outside the [0, 10] range stated for Risk Scores. -/
theorem legacy_scorer_unclamped (s a d : ℚ) :
    (analyze_mental_health s a d).score =
      pyRound (s * (2 / 5) + a * (3 / 10) + d * (3 / 10)) 2 ∧
      (analyze_mental_health 20 20 20).score = 20 ∧
      ¬(analyze_mental_health 20 20 20).score ≤ 10 := by
  have h20 : (analyze_mental_health 20 20 20).score = 20 := by
    have hp := pyRound_eq_self 2000 2
    norm_num at hp
    simp only [analyze_mental_health]
    norm_num [hp]
  refine ⟨?_, h20, by rw [h20]; norm_num⟩
  simp only [analyze_mental_health]
  norm_num

/-- C10: on the empty attribute mapping every numeric field defaults to
0, the missing sleep hours satisfy `sleep < 6` and trigger the +0.4
short-sleep nudge, and `compute_risk_score` returns 0.4, not 0. -/
theorem empty_mapping_score :
    compute_risk_score fdEmpty = 2 / 5 ∧ (2 / 5 : ℚ) ≠ 0 := by
  have h1 : pyClamp (-1) 1 (2 / 5 : ℚ) = 2 / 5 := by
    unfold pyClamp
    rw [min_eq_right (by norm_num), max_eq_right (by norm_num)]
  have h2 : pyClamp 0 10 (2 / 5 : ℚ) = 2 / 5 := by
    unfold pyClamp
    rw [min_eq_right (by norm_num), max_eq_right (by norm_num)]
  have h3 : pyRound (2 / 5) 1 = 2 / 5 := by
    have h := pyRound_eq_self 4 1
    norm_num at h
    exact h
  constructor
  · simp only [compute_risk_score, baseScore_fdEmpty, nudgesSum_fdEmpty]
    norm_num [h1, h2, h3]
  · norm_num

end MindPulse
